import Mathlib

/- Verification development for the FinFamily ERP reconciliation logic.

   Shallow embedding of the data model (src types module), the reconciliation
   functions of src/components/ModuleDetail.tsx (normalize, getProjectionData,
   getRealizationData, the month filter and the derived percentage), the
   dashboard aggregation getModuleTotal of src/App.tsx, and the advice
   service getFinancialAdvice of src/services/geminiService.ts.

   Monetary amounts are JavaScript numbers in the source; they are embedded
   as rationals, which is exact on every value the claims exercise. -/

namespace FinFamily

/- Data model, from the types module of the repository. -/

inductive ModuleType where
  | budget
  | travel
  | investment
  | projection
deriving DecidableEq

inductive TransactionType where
  | income
  | expense
  | asset
deriving DecidableEq

structure Transaction where
  id : String
  moduleId : ModuleType
  title : String
  amount : ℚ
  date : String
  type : TransactionType
  category : Option String := none
  note : Option String := none
deriving DecidableEq

/-- Derived record of the reconciliation queries; the object literal returned
by getProjectionData and getRealizationData in src/components/ModuleDetail.tsx
(the spec calls it ProjectionMatch). -/
structure ProjectionMatch where
  goalAmount : ℚ
  currentTotal : ℚ
  isOver : Bool
deriving DecidableEq

/-- Splitting a character list at every dash, the behavior of the JavaScript
split on the separator dash used by the date parsing in
src/components/ModuleDetail.tsx. The second argument accumulates the current
segment in reverse. -/
def splitOnDashAux : List Char → List Char → List (List Char)
  | [], acc => [acc.reverse]
  | c :: cs, acc =>
      if c = '-' then acc.reverse :: splitOnDashAux cs []
      else splitOnDashAux cs (c :: acc)

/-- Decimal digit-run parsing of one date component, the behavior of the
JavaScript Number conversion on the digit strings produced by the date
split; a component that is empty or holds a non-digit yields none, which
the month test below treats as a failed comparison, as the NaN comparisons
of the source do. -/
def charsToNatAux : List Char → Nat → Option Nat
  | [], acc => some acc
  | c :: cs, acc =>
      if c.isDigit then charsToNatAux cs (acc * 10 + (c.toNat - 48)) else none

def charsToNat? (cs : List Char) : Option Nat :=
  if cs.isEmpty then none else charsToNatAux cs 0

/-- Removal of leading and trailing whitespace from a character list, the
behavior of the JavaScript trim. -/
def trimChars (cs : List Char) : List Char :=
  ((cs.dropWhile Char.isWhitespace).reverse.dropWhile Char.isWhitespace).reverse

/-- Title normalization helper of src/components/ModuleDetail.tsx:
lower-case every character, then trim surrounding whitespace. -/
def normalize (str : String) : String :=
  String.mk (trimChars (str.data.map Char.toLower))

/-- Month membership test of src/components/ModuleDetail.tsx: the date string
is split on the dash and the first two components are compared as plain
integers against the selected year and month. -/
def dateInMonth (date : String) (year month : Nat) : Bool :=
  match (splitOnDashAux date.data []).map charsToNat? with
  | some y :: some m :: _ => m == month && y == year
  | _ => false

/-- getProjectionData of src/components/ModuleDetail.tsx. The component
closes over module.id, the transactions prop (the active module records),
the allTransactions prop and the selected month; those appear here as
parameters. Returns none when the active module is the projection module or
when no projection record carries the queried normalized title. -/
def getProjectionData (moduleId : ModuleType) (transactions allTransactions : List Transaction)
    (year month : Nat) (transactionTitle : String) : Option ProjectionMatch :=
  if moduleId = ModuleType.projection then none
  else
    match allTransactions.find? (fun p =>
        p.moduleId == ModuleType.projection && normalize p.title == normalize transactionTitle) with
    | none => none
    | some projection =>
        let filteredTransactions := transactions.filter (fun t => dateInMonth t.date year month)
        let totalSpent := (filteredTransactions.filter
            (fun t => normalize t.title == normalize transactionTitle)).foldl
            (fun sum t => sum + t.amount) 0
        some { goalAmount := projection.amount
               currentTotal := totalSpent
               isOver := decide (totalSpent > projection.amount) }

/-- getRealizationData of src/components/ModuleDetail.tsx. Returns none
unless the active module is the projection module; otherwise sums, over the
transactions of the selected month, the amounts of the records outside the
projection module whose normalized title equals the normalized title of the
given projection record. -/
def getRealizationData (moduleId : ModuleType) (allTransactions : List Transaction)
    (year month : Nat) (projection : Transaction) : Option ProjectionMatch :=
  if moduleId ≠ ModuleType.projection then none
  else
    let allCurrentMonthTransactions := allTransactions.filter
        (fun t => dateInMonth t.date year month)
    let totalRealized := (allCurrentMonthTransactions.filter (fun t =>
        t.moduleId != ModuleType.projection &&
        normalize t.title == normalize projection.title)).foldl
        (fun sum t => sum + t.amount) 0
    some { goalAmount := projection.amount
           currentTotal := totalRealized
           isOver := decide (totalRealized > projection.amount) }

/-- Derived display percentage of src/components/ModuleDetail.tsx: with match
data present it is the ratio of current total to goal, scaled to 100 and
clamped from above at 100; without data it is 0. -/
def percentage (data : Option ProjectionMatch) : ℚ :=
  match data with
  | some d => min (d.currentTotal / d.goalAmount * 100) 100
  | none => 0

/-- The raw ratio displayed next to the progress bar in
src/components/ModuleDetail.tsx, before rounding: currentTotal over
goalAmount scaled to 100. The source divides JavaScript numbers, where a
zero divisor yields Infinity or NaN; those non-finite outcomes are embedded
as none, a finite quotient as some. -/
def rawRatioDisplay (d : ProjectionMatch) : Option ℚ :=
  if d.goalAmount = 0 then none else some (d.currentTotal / d.goalAmount * 100)

/-- getModuleTotal of src/App.tsx: left fold over the records of the given
module, adding income amounts and subtracting the amount of every other
record kind. -/
def getModuleTotal (moduleId : ModuleType) (transactions : List Transaction) : ℚ :=
  (transactions.filter (fun t => t.moduleId == moduleId)).foldl
    (fun acc curr => if curr.type == TransactionType.income then acc + curr.amount
                     else acc - curr.amount) 0

/- Advice service, from src/services/geminiService.ts. -/

inductive RiskLevel where
  | Low
  | Medium
  | High
deriving DecidableEq

structure AIAnalysisResult where
  summary : String
  tips : List String
  riskLevel : RiskLevel
deriving DecidableEq

/-- getFinancialAdvice of src/services/geminiService.ts. The environment
lookup of the API key is the apiKey parameter (the source treats the empty
string as absent); the awaited model call together with the JSON parse of
its text is the modelOutcome parameter, an exception raised anywhere inside
the try block being the error case. The transaction list and module title
only feed the prompt and do not affect the control flow embedded here. -/
def getFinancialAdvice (apiKey : String) (modelOutcome : Except String AIAnalysisResult) :
    AIAnalysisResult :=
  if apiKey = "" then
    { summary := "API Key não configurada no servidor."
      tips := ["Configure a variável de ambiente API_KEY no painel do Netlify.",
               "Reinicie o deploy.",
               "Consulte a documentação."]
      riskLevel := RiskLevel.Low }
  else
    match modelOutcome with
    | Except.ok result => result
    | Except.error _ =>
      { summary := "Não foi possível analisar os dados no momento."
        tips := ["Verifique sua conexão.",
                 "Tente novamente mais tarde.",
                 "Contate o suporte se o erro persistir."]
        riskLevel := RiskLevel.Low }

/-- Sum of the amounts of a record list; used to state the aggregation
claims. -/
def sumAmounts (l : List Transaction) : ℚ := (l.map Transaction.amount).sum

/- Concrete records for the counterexamples and witnesses. -/

def projRentFeb : Transaction where
  id := "p1"
  moduleId := ModuleType.projection
  title := "rent"
  amount := 100
  date := "2024-02-01"
  type := TransactionType.expense

def budgetRentJan : Transaction where
  id := "m1"
  moduleId := ModuleType.budget
  title := "rent"
  amount := 50
  date := "2024-01-15"
  type := TransactionType.expense

def incomeSalary : Transaction where
  id := "s1"
  moduleId := ModuleType.budget
  title := "salary"
  amount := 500
  date := "2024-01-01"
  type := TransactionType.income

def expenseFood : Transaction where
  id := "f1"
  moduleId := ModuleType.budget
  title := "food"
  amount := 200
  date := "2024-01-02"
  type := TransactionType.expense

def assetStock : Transaction where
  id := "k1"
  moduleId := ModuleType.budget
  title := "stock"
  amount := 1000
  date := "2024-01-03"
  type := TransactionType.asset

def projRentZeroJan : Transaction where
  id := "p0"
  moduleId := ModuleType.projection
  title := "rent"
  amount := 0
  date := "2024-01-02"
  type := TransactionType.expense

def budgetRent100Jan : Transaction where
  id := "m2"
  moduleId := ModuleType.budget
  title := "rent"
  amount := 100
  date := "2024-01-10"
  type := TransactionType.expense

def projRent999Feb : Transaction where
  id := "p9"
  moduleId := ModuleType.projection
  title := "rent"
  amount := 999
  date := "2024-02-01"
  type := TransactionType.expense

def projRent100Jan : Transaction where
  id := "p2"
  moduleId := ModuleType.projection
  title := "rent"
  amount := 100
  date := "2024-01-05"
  type := TransactionType.expense

def budgetRent50Jan : Transaction where
  id := "m3"
  moduleId := ModuleType.budget
  title := "rent"
  amount := 50
  date := "2024-01-10"
  type := TransactionType.expense

/- Helper lemmas shared by the claim theorems. -/

/-- The accumulating fold used by both reconciliation queries computes the
sum of the amounts. -/
theorem foldl_amount (l : List Transaction) (init : ℚ) :
    l.foldl (fun sum t => sum + t.amount) init = init + sumAmounts l := by
  induction l generalizing init with
  | nil => simp [sumAmounts]
  | cons t ts ih => simp [sumAmounts, List.foldl, ih]; ring

/-- The signed fold of getModuleTotal splits into the three kind sums. -/
theorem signedFold (l : List Transaction) (init : ℚ) :
    l.foldl (fun acc curr =>
        if curr.type == TransactionType.income then acc + curr.amount
        else acc - curr.amount) init =
      init + sumAmounts (l.filter (fun t => t.type == TransactionType.income))
        - sumAmounts (l.filter (fun t => t.type == TransactionType.expense))
        - sumAmounts (l.filter (fun t => t.type == TransactionType.asset)) := by
  induction l generalizing init with
  | nil => simp [sumAmounts]
  | cons t ts ih =>
      rw [List.foldl_cons, ih]
      cases ht : t.type <;>
        simp [List.filter_cons, ht, sumAmounts] <;> ring

/- Claim theorems. -/

/-- C1 counterexample: with the single projection record dated 2024-02 and
the queried budget record dated 2024-01, the forward query for January 2024
still reports the February projection amount as the goal; the matched
projection does not lie in the calendar month of the queried record, so the
same-month half of the claimed matching invariant fails on the code. -/
theorem getProjectionData_cross_month :
    getProjectionData ModuleType.budget [budgetRentJan] [projRentFeb, budgetRentJan]
        2024 1 ("rent") =
      some { goalAmount := 100, currentTotal := 50, isOver := false } ∧
    [projRentFeb, budgetRentJan].filter (fun t => t.moduleId == ModuleType.projection) =
      [projRentFeb] ∧
    projRentFeb.amount = 100 ∧
    dateInMonth projRentFeb.date 2024 1 = false ∧
    dateInMonth budgetRentJan.date 2024 1 = true := by
  refine ⟨?_, by decide, by decide, by decide, by decide⟩
  simp [getProjectionData, projRentFeb, budgetRentJan, List.find?, List.filter,
        dateInMonth, normalize, splitOnDashAux, charsToNat?, charsToNatAux, trimChars]
  norm_num

/-- C1 (amended): the goal amount reported by the forward query is the
amount of a projection record of the snapshot whose normalized title equals
the queried normalized title; no restriction relates the months of the
matched projection and of the queried record. -/
theorem getProjectionData_goal_from_title_match (mid : ModuleType)
    (trans all : List Transaction) (y m : Nat) (title : String) (r : ProjectionMatch)
    (h : getProjectionData mid trans all y m title = some r) :
    ∃ p, p ∈ all ∧ p.moduleId = ModuleType.projection ∧
      normalize p.title = normalize title ∧ r.goalAmount = p.amount := by
  unfold getProjectionData at h
  by_cases hmid : mid = ModuleType.projection
  · simp [hmid] at h
  · rw [if_neg hmid] at h
    cases hf : all.find? (fun p =>
        p.moduleId == ModuleType.projection && normalize p.title == normalize title) with
    | none => rw [hf] at h; exact absurd h (by simp)
    | some proj =>
        rw [hf] at h
        simp only [Option.some.injEq] at h
        have hp := List.find?_some hf
        have hmem := List.mem_of_find?_eq_some hf
        simp only [Bool.and_eq_true, beq_iff_eq] at hp
        refine ⟨proj, hmem, hp.1, hp.2, ?_⟩
        rw [← h]

/-- C1 amended claim, witnessed at a concrete cross-month snapshot. -/
theorem getProjectionData_goal_from_title_match_witness :
    ∃ p, p ∈ [projRentFeb, budgetRentJan] ∧ p.moduleId = ModuleType.projection ∧
      normalize p.title = normalize ("rent") ∧
      ProjectionMatch.goalAmount { goalAmount := 100, currentTotal := 50, isOver := false } =
        p.amount :=
  getProjectionData_goal_from_title_match ModuleType.budget [budgetRentJan]
    [projRentFeb, budgetRentJan] 2024 1 ("rent") _
    (by simp [getProjectionData, projRentFeb, budgetRentJan, List.find?, List.filter,
              dateInMonth, normalize, splitOnDashAux, charsToNat?, charsToNatAux, trimChars]
        norm_num)

/-- C2 counterexample: a budget module with one income of 500 and one
expense of 200 totals 300, but adding an asset record of 1000 changes the
total to minus 700; asset records are subtracted, not excluded. -/
theorem getModuleTotal_asset_changes_total :
    getModuleTotal ModuleType.budget [incomeSalary, expenseFood] = 300 ∧
    getModuleTotal ModuleType.budget [incomeSalary, expenseFood, assetStock] = -700 ∧
    getModuleTotal ModuleType.budget [incomeSalary, expenseFood, assetStock] ≠
      getModuleTotal ModuleType.budget [incomeSalary, expenseFood] := by
  refine ⟨?_, ?_, ?_⟩ <;>
    simp [getModuleTotal, incomeSalary, expenseFood, assetStock, List.filter, List.foldl] <;>
    norm_num

/-- C2 (amended): the module total is the income sum minus the expense sum
minus the asset sum of the records of the module; asset records contribute
their negated amount, exactly as expense records do. -/
theorem getModuleTotal_signed_sum (moduleId : ModuleType) (records : List Transaction) :
    getModuleTotal moduleId records =
      sumAmounts ((records.filter (fun t => t.moduleId == moduleId)).filter
          (fun t => t.type == TransactionType.income))
      - sumAmounts ((records.filter (fun t => t.moduleId == moduleId)).filter
          (fun t => t.type == TransactionType.expense))
      - sumAmounts ((records.filter (fun t => t.moduleId == moduleId)).filter
          (fun t => t.type == TransactionType.asset)) := by
  simpa [getModuleTotal] using
    signedFold (records.filter (fun t => t.moduleId == moduleId)) 0

/-- C3: the source does not special-case a zero goal amount. At a snapshot
whose only projection for the queried title has amount 0, the forward query
returns a match with goalAmount 0 and positive currentTotal, and the raw
display ratio then divides by the zero goal: in the JavaScript source this
yields a non-finite number, shown both in the rounded percentage label and
the progress bar width, embedded here as the none outcome of
rawRatioDisplay. -/
theorem percentage_zero_goal_not_special_cased :
    getProjectionData ModuleType.budget [budgetRent100Jan] [projRentZeroJan, budgetRent100Jan]
        2024 1 ("rent") = some { goalAmount := 0, currentTotal := 100, isOver := true } ∧
    rawRatioDisplay { goalAmount := 0, currentTotal := 100, isOver := true } = none := by
  constructor
  · simp [getProjectionData, projRentZeroJan, budgetRent100Jan, List.find?, List.filter,
          dateInMonth, normalize, splitOnDashAux, charsToNat?, charsToNatAux, trimChars]
  · simp [rawRatioDisplay]

/-- C4 counterexample: with two projection records carrying the normalized
title rent, amounts 999 (dated February) and 100 (dated January), and a
January budget record of the same title, the forward query for January
reports goal 999 while the reverse query on the January projection reports
goal 100, although that projection and the budget record have equal
normalized titles and equal year and month. -/
theorem goalAmount_mismatch_two_projections :
    (getProjectionData ModuleType.budget [budgetRent50Jan]
        [projRent999Feb, projRent100Jan, budgetRent50Jan] 2024 1 ("rent")).map
        ProjectionMatch.goalAmount = some 999 ∧
    (getRealizationData ModuleType.projection [projRent999Feb, projRent100Jan, budgetRent50Jan]
        2024 1 projRent100Jan).map ProjectionMatch.goalAmount = some 100 ∧
    normalize projRent100Jan.title = normalize budgetRent50Jan.title ∧
    dateInMonth projRent100Jan.date 2024 1 = true ∧
    dateInMonth budgetRent50Jan.date 2024 1 = true ∧
    (999 : ℚ) ≠ 100 := by
  refine ⟨?_, ?_, by decide, by decide, by decide, by norm_num⟩
  · simp [getProjectionData, projRent999Feb, projRent100Jan, budgetRent50Jan, List.find?,
          List.filter, dateInMonth, normalize, splitOnDashAux, charsToNat?, charsToNatAux,
          trimChars]
  · simp [getRealizationData, projRent999Feb, projRent100Jan, budgetRent50Jan, List.find?,
          List.filter, dateInMonth, normalize, splitOnDashAux, charsToNat?, charsToNatAux,
          trimChars]

/-- C4 (amended): when the given projection record is the first record of
the snapshot satisfying the projection-title search for the queried title,
for instance when it is the only projection with that normalized title, the
forward and the reverse query report the same goal amount, namely its
amount. -/
theorem goalAmount_agree_of_find (mid : ModuleType) (trans all : List Transaction)
    (y m : Nat) (title : String) (P : Transaction)
    (hmid : mid ≠ ModuleType.projection)
    (hfind : all.find? (fun p => p.moduleId == ModuleType.projection &&
        normalize p.title == normalize title) = some P) :
    (getProjectionData mid trans all y m title).map ProjectionMatch.goalAmount =
      some P.amount ∧
    (getRealizationData ModuleType.projection all y m P).map ProjectionMatch.goalAmount =
      some P.amount := by
  constructor
  · simp [getProjectionData, hmid, hfind]
  · simp [getRealizationData]

/-- C4 amended claim, witnessed at a snapshot with a unique projection. -/
theorem goalAmount_agree_of_find_witness :
    (getProjectionData ModuleType.budget [budgetRent50Jan] [projRent100Jan, budgetRent50Jan]
        2024 1 ("rent")).map ProjectionMatch.goalAmount = some projRent100Jan.amount ∧
    (getRealizationData ModuleType.projection [projRent100Jan, budgetRent50Jan] 2024 1
        projRent100Jan).map ProjectionMatch.goalAmount = some projRent100Jan.amount :=
  goalAmount_agree_of_find ModuleType.budget [budgetRent50Jan] [projRent100Jan, budgetRent50Jan]
    2024 1 ("rent") projRent100Jan (by decide) (by decide)

/-- C5: the currentTotal of a successful forward query, taken over the
module records of the snapshot as the dashboard wires them in, equals the
sum of the amounts over all records of that module in the selected month
whose normalized title equals the queried normalized title, and this value
is unchanged under any permutation of the snapshot. -/
theorem currentTotal_sums_all_matches (mid : ModuleType) (all all' : List Transaction)
    (y m : Nat) (title : String) (r : ProjectionMatch)
    (hperm : all.Perm all')
    (h : getProjectionData mid (all.filter (fun t => t.moduleId == mid)) all y m title =
      some r) :
    r.currentTotal = sumAmounts (((all.filter (fun t => t.moduleId == mid)).filter
        (fun t => dateInMonth t.date y m)).filter
        (fun t => normalize t.title == normalize title)) ∧
    (getProjectionData mid (all'.filter (fun t => t.moduleId == mid)) all' y m title).map
        ProjectionMatch.currentTotal = some r.currentTotal := by
  have hsum : sumAmounts (((all'.filter (fun t => t.moduleId == mid)).filter
        (fun t => dateInMonth t.date y m)).filter
        (fun t => normalize t.title == normalize title)) =
      sumAmounts (((all.filter (fun t => t.moduleId == mid)).filter
        (fun t => dateInMonth t.date y m)).filter
        (fun t => normalize t.title == normalize title)) :=
    (List.Perm.map Transaction.amount
      (((hperm.symm.filter _).filter _).filter _)).sum_eq
  unfold getProjectionData at h
  by_cases hmid : mid = ModuleType.projection
  · rw [if_pos hmid] at h; exact absurd h (by simp)
  · rw [if_neg hmid] at h
    cases hf : all.find? (fun p =>
        p.moduleId == ModuleType.projection && normalize p.title == normalize title) with
    | none => rw [hf] at h; exact absurd h (by simp)
    | some proj =>
        rw [hf] at h
        simp only [Option.some.injEq] at h
        have hpred := List.find?_some hf
        have hmem := hperm.mem_iff.mp (List.mem_of_find?_eq_some hf)
        have hex : ∃ x ∈ all', (fun p => p.moduleId == ModuleType.projection &&
            normalize p.title == normalize title) x = true := ⟨proj, hmem, hpred⟩
        obtain ⟨proj', hf'⟩ := Option.isSome_iff_exists.mp (List.find?_isSome.mpr hex)
        subst h
        constructor
        · simp [foldl_amount]
        · simp only [getProjectionData, if_neg hmid, hf', Option.map_some',
                     Option.some.injEq, foldl_amount, zero_add]
          exact hsum

def projGroceriesMar : Transaction where
  id := "g0"
  moduleId := ModuleType.projection
  title := "Groceries"
  amount := 200
  date := "2024-03-01"
  type := TransactionType.expense

def budgetGroceries100 : Transaction where
  id := "g1"
  moduleId := ModuleType.budget
  title := "Groceries"
  amount := 100
  date := "2024-03-05"
  type := TransactionType.expense

def budgetGroceries50 : Transaction where
  id := "g2"
  moduleId := ModuleType.budget
  title := "Groceries"
  amount := 50
  date := "2024-03-12"
  type := TransactionType.expense

/-- C5, witnessed: two same-month Groceries records of 100 and 50 resolve to
a currentTotal of 150, also after reordering the snapshot. -/
theorem currentTotal_sums_all_matches_witness :
    ProjectionMatch.currentTotal { goalAmount := 200, currentTotal := 150, isOver := false } =
      sumAmounts ((([projGroceriesMar, budgetGroceries100, budgetGroceries50].filter
          (fun t => t.moduleId == ModuleType.budget)).filter
          (fun t => dateInMonth t.date 2024 3)).filter
          (fun t => normalize t.title == normalize ("Groceries"))) ∧
    (getProjectionData ModuleType.budget
        ([budgetGroceries50, projGroceriesMar, budgetGroceries100].filter
          (fun t => t.moduleId == ModuleType.budget))
        [budgetGroceries50, projGroceriesMar, budgetGroceries100] 2024 3 ("Groceries")).map
        ProjectionMatch.currentTotal =
      some (ProjectionMatch.currentTotal
        { goalAmount := 200, currentTotal := 150, isOver := false }) := by
  refine currentTotal_sums_all_matches ModuleType.budget
    [projGroceriesMar, budgetGroceries100, budgetGroceries50]
    [budgetGroceries50, projGroceriesMar, budgetGroceries100] 2024 3 ("Groceries")
    { goalAmount := 200, currentTotal := 150, isOver := false }
    (by decide) ?_
  simp [getProjectionData, projGroceriesMar, budgetGroceries100, budgetGroceries50,
        List.find?, List.filter, dateInMonth, normalize, splitOnDashAux, charsToNat?,
        charsToNatAux, trimChars]
  norm_num

/-- C6: the reverse query in the projection module always returns a result;
its goal is the amount of the given projection record and its current total
is the sum of the amounts over the records of the selected month that lie
outside the projection module and carry the same normalized title, hence 0
for a projection with zero realization. -/
theorem getRealizationData_total (all : List Transaction) (y m : Nat) (P : Transaction) :
    ∃ r, getRealizationData ModuleType.projection all y m P = some r ∧
      r.goalAmount = P.amount ∧
      r.currentTotal = sumAmounts ((all.filter (fun t => dateInMonth t.date y m)).filter
        (fun t => t.moduleId != ModuleType.projection &&
          normalize t.title == normalize P.title)) := by
  simp only [getRealizationData, ne_eq, not_true_eq_false, if_false, ite_false]
  refine ⟨_, rfl, rfl, ?_⟩
  simp [foldl_amount]

/-- C7: in every result of either reconciliation query, isOver holds
exactly when the current total strictly exceeds the goal amount; equality
is not over. -/
theorem isOver_iff_strict (mid : ModuleType) (trans all : List Transaction) (y m : Nat)
    (title : String) (P : Transaction) (r : ProjectionMatch)
    (h : getProjectionData mid trans all y m title = some r ∨
         getRealizationData mid all y m P = some r) :
    r.isOver = true ↔ r.goalAmount < r.currentTotal := by
  rcases h with h | h
  · unfold getProjectionData at h
    by_cases hmid : mid = ModuleType.projection
    · rw [if_pos hmid] at h; exact absurd h (by simp)
    · rw [if_neg hmid] at h
      cases hf : all.find? (fun p =>
          p.moduleId == ModuleType.projection && normalize p.title == normalize title) with
      | none => rw [hf] at h; exact absurd h (by simp)
      | some proj =>
          rw [hf] at h
          simp only [Option.some.injEq] at h
          subst h
          simp
  · unfold getRealizationData at h
    by_cases hmid : mid = ModuleType.projection
    · rw [if_neg (by simp [hmid])] at h
      simp only [Option.some.injEq] at h
      subst h
      simp
    · rw [if_pos hmid] at h; exact absurd h (by simp)

/-- C7, witnessed on a forward query result with the total below the
goal. -/
theorem isOver_iff_strict_witness :
    ProjectionMatch.isOver { goalAmount := 100, currentTotal := 50, isOver := false } = true ↔
      ProjectionMatch.goalAmount { goalAmount := 100, currentTotal := 50, isOver := false } <
        ProjectionMatch.currentTotal { goalAmount := 100, currentTotal := 50, isOver := false } := by
  refine isOver_iff_strict ModuleType.budget [budgetRentJan] [projRentFeb, budgetRentJan] 2024 1
    ("rent") budgetRentJan { goalAmount := 100, currentTotal := 50, isOver := false }
    (Or.inl ?_)
  simp [getProjectionData, projRentFeb, budgetRentJan, List.find?, List.filter,
        dateInMonth, normalize, splitOnDashAux, charsToNat?, charsToNatAux, trimChars]
  norm_num

/-- C8: for a nonnegative current total and a strictly positive goal, the
clamped display percentage lies between 0 and 100. -/
theorem percentage_in_range (d : ProjectionMatch) (h0 : 0 ≤ d.currentTotal)
    (h1 : 0 < d.goalAmount) :
    0 ≤ percentage (some d) ∧ percentage (some d) ≤ 100 := by
  constructor
  · simp only [percentage]
    exact le_min (mul_nonneg (div_nonneg h0 h1.le) (by norm_num)) (by norm_num)
  · simp only [percentage]
    exact min_le_right _ _

/-- C8, witnessed at a quarter-filled goal. -/
theorem percentage_in_range_witness :
    0 ≤ percentage (some { goalAmount := 200, currentTotal := 50, isOver := false }) ∧
    percentage (some { goalAmount := 200, currentTotal := 50, isOver := false }) ≤ 100 :=
  percentage_in_range { goalAmount := 200, currentTotal := 50, isOver := false }
    (by norm_num) (by norm_num)

/-- C9: title matching is case- and whitespace-insensitive: the forward
query depends on the queried title only through its normalized form, so two
titles with equal normalized forms, such as Aluguel with a trailing space
and aluguel, are matched to the same goal. -/
theorem getProjectionData_title_insensitive (s t : String) (mid : ModuleType)
    (trans all : List Transaction) (y m : Nat)
    (h : normalize s = normalize t) :
    getProjectionData mid trans all y m s = getProjectionData mid trans all y m t := by
  simp only [getProjectionData, h]

def aluguelProj : Transaction where
  id := "a0"
  moduleId := ModuleType.projection
  title := "aluguel"
  amount := 900
  date := "2024-01-01"
  type := TransactionType.expense

/-- C9, witnessed on the spec example pair of titles. -/
theorem getProjectionData_title_insensitive_witness :
    getProjectionData ModuleType.budget [budgetRent100Jan] [aluguelProj, budgetRent100Jan]
        2024 1 ("Aluguel ") =
      getProjectionData ModuleType.budget [budgetRent100Jan] [aluguelProj, budgetRent100Jan]
        2024 1 ("aluguel") :=
  getProjectionData_title_insensitive ("Aluguel ") ("aluguel") ModuleType.budget
    [budgetRent100Jan] [aluguelProj, budgetRent100Jan] 2024 1 (by decide)

/-- C10: the advice service is total at its interface: with no configured
API key, or whenever the model call or the parse of its reply fails, it
returns a fallback analysis with a nonempty summary, exactly three tips and
the Low risk level, instead of propagating the failure. -/
theorem getFinancialAdvice_fallback (apiKey : String)
    (modelOutcome : Except String AIAnalysisResult)
    (h : apiKey = "" ∨ ∃ e, modelOutcome = Except.error e) :
    (getFinancialAdvice apiKey modelOutcome).tips.length = 3 ∧
    (getFinancialAdvice apiKey modelOutcome).riskLevel = RiskLevel.Low ∧
    (getFinancialAdvice apiKey modelOutcome).summary ≠ "" := by
  rcases h with h | ⟨e, h⟩
  · subst h
    refine ⟨rfl, rfl, ?_⟩
    show ("API Key não configurada no servidor." : String) ≠ ""
    decide
  · subst h
    by_cases hk : apiKey = ""
    · subst hk
      refine ⟨rfl, rfl, ?_⟩
      show ("API Key não configurada no servidor." : String) ≠ ""
      decide
    · unfold getFinancialAdvice
      rw [if_neg hk]
      refine ⟨rfl, rfl, ?_⟩
      show ("Não foi possível analisar os dados no momento." : String) ≠ ""
      decide

/-- C10, witnessed on a missing key together with a failing model call. -/
theorem getFinancialAdvice_fallback_witness :
    (getFinancialAdvice ("") (Except.error ("boom"))).tips.length = 3 ∧
    (getFinancialAdvice ("") (Except.error ("boom"))).riskLevel = RiskLevel.Low ∧
    (getFinancialAdvice ("") (Except.error ("boom"))).summary ≠ "" :=
  getFinancialAdvice_fallback ("") (Except.error ("boom")) (Or.inl rfl)

end FinFamily
